import Mathlib

/-!
Verification of the LifeShot client-side session/synchronizer logic.

Shallow embedding of the browser dashboard code (`src/client/script.js`,
`src/deploy/client/js/admin.js`) and the auth Lambda (`src/server/index.mjs`).
Host-environment primitives that the code calls (`new Date(s).getTime()`,
`Number(s)`) are modelled as explicit parameters of type `String → Option Int`
(`none` standing for JavaScript `NaN`); `Date.now()` is an explicit `now`
argument.
-/

namespace LifeShot

/-- An element of the `/events` feed as consumed by the dashboards.
Fields that may be `undefined` in JS are modelled as `""` (the code only
ever tests them for truthiness or passes them to `String(...)`). -/
structure Event where
  eventId : String
  status : String
  created_at : String
  prevImageUrl : String
  warningImageUrl : String
deriving Repr, DecidableEq

/-- JS `String.prototype.toUpperCase` (the code only applies it to ASCII
status strings): uppercase every character. -/
def toUpperCase (s : String) : String :=
  ⟨s.data.map Char.toUpper⟩

/-- JS `String.prototype.toLowerCase` (applied to ASCII group/role names):
lowercase every character. -/
def toLowerCase (s : String) : String :=
  ⟨s.data.map Char.toLower⟩

/-- `script.js` `normalizeStatus`: `String(s || "").toUpperCase()`. -/
def normalizeStatus (s : String) : String :=
  toUpperCase s

/-- `script.js` `parseDateSafe`: `new Date(s)` with `NaN` mapped to epoch 0.
`dateVal` is the host date parser (`new Date(s).getTime()`), `none` = `NaN`. -/
def parseDateSafe (dateVal : String → Option Int) (s : String) : Int :=
  (dateVal s).getD 0

/-- `script.js` `getSafeUrl`: appends a `cb=<Date.now()>` cache-busting
parameter, with `&` if the URL already contains `?`, else `?`. -/
def getSafeUrl (now : Nat) (url : String) : String :=
  if url = "" then ""
  else
    url ++ (if url.data.contains '?' then "&" else "?")
      ++ "cb=" ++ toString now

/-- The filter predicate inside `checkLiveAlerts`:
`normalizeStatus(e.status) === "OPEN" && e.warningImageUrl` (truthy). -/
def alertWorthy (e : Event) : Bool :=
  normalizeStatus e.status = "OPEN" && e.warningImageUrl ≠ ""

/-- Comparator order used by `checkLiveAlerts`'s
`.sort((a, b) => parseDateSafe(b.created_at) - parseDateSafe(a.created_at))`:
`a` precedes `b` when `a`'s parsed date is at least `b`'s (descending). -/
def dateDescOrder (dateVal : String → Option Int) (a b : Event) : Prop :=
  parseDateSafe dateVal b.created_at ≤ parseDateSafe dateVal a.created_at

instance (dateVal : String → Option Int) :
    DecidableRel (dateDescOrder dateVal) := by
  intro a b
  unfold dateDescOrder
  infer_instance

/-- The classification step of `checkLiveAlerts`: filter the fetched list to
alert-worthy events, then sort by parsed `created_at` descending (JS `sort`
returns a permutation ordered according to the comparator). -/
def classify (dateVal : String → Option Int) (events : List Event) :
    List Event :=
  List.insertionSort (dateDescOrder dateVal) (events.filter alertWorthy)

/-- `script.js` `isTokenExpired`.  `stored` is
`localStorage.getItem("ls_expires_at")` (`none` when absent); `jsNum` is the
JS `Number(...)` conversion (`none` = `NaN`).  `!exp` in JS is true for both
`0` and `NaN`, so both return `false`; otherwise `Date.now() > exp - 15_000`. -/
def isTokenExpired (jsNum : String → Option Int) (now : Int)
    (stored : Option String) : Bool :=
  match jsNum (stored.getD "0") with
  | none => false
  | some exp => if exp = 0 then false else decide (now > exp - 15000)

/-- `script.js` `getApiBearerToken`: prefer the id token, fall back to the
access token. -/
def getApiBearerToken (idToken accessToken : String) : String :=
  if idToken ≠ "" then idToken else accessToken

/-- `script.js` `authHeader`: a `Bearer` header exactly when a token exists
and is not expired; otherwise no header (`{}`). -/
def authHeader (jsNum : String → Option Int) (now : Int)
    (stored : Option String) (idToken accessToken : String) : Option String :=
  let token := getApiBearerToken idToken accessToken
  if token = "" || isTokenExpired jsNum now stored then none
  else some ("Bearer " ++ token)

/-- The `/events` response as the client sees it: an HTTP status plus a
body. The body is left abstract (only the status drives `apiFetch`'s
control flow). -/
structure SentRequest where
  authz : Option String
deriving Repr, DecidableEq

/-- `script.js` `apiFetch`: always performs the fetch (never pre-blocks),
sending whatever `authHeader()` yields; throws `Unauthorized` exactly on
response status 401 or 403, otherwise returns the response unchanged.
The returned pair is (the request that was sent, the outcome: thrown
status on the error side, the untouched response status on the ok side). -/
def apiFetch (jsNum : String → Option Int) (now : Int)
    (stored : Option String) (idToken accessToken : String)
    (respStatus : Nat) : SentRequest × Except Nat Nat :=
  let req : SentRequest := ⟨authHeader jsNum now stored idToken accessToken⟩
  if respStatus = 401 || respStatus = 403 then (req, Except.error respStatus)
  else (req, Except.ok respStatus)

/-- `script.js` `nextAlert` on a list of length `n` with current index `i`
(the index is a JS number, modelled as `Int`): no-op on the empty list,
else increment and wrap to 0 when falling off the end. -/
def nextAlert (n : Nat) (i : Int) : Int :=
  if n = 0 then i
  else
    let j := i + 1
    if j ≥ (n : Int) then 0 else j

/-- `script.js` `prevAlert`: no-op on the empty list, else decrement and
wrap to `n - 1` when falling below 0. -/
def prevAlert (n : Nat) (i : Int) : Int :=
  if n = 0 then i
  else
    let j := i - 1
    if j < 0 then (n : Int) - 1 else j

/-- One `checkLiveAlerts` poll looked at through the sound latch
(`window.alertSoundPlayed`): given the latch and the freshly classified
alert list, returns (new latch, whether the audible cue was played on this
poll). Nonempty list: play only when the latch is down, then raise it.
Empty list: reset the latch, no sound. -/
def pollSound (latch : Bool) (alerts : List Event) : Bool × Bool :=
  if alerts.isEmpty then (false, false)
  else if latch then (true, false) else (true, true)

/-- Fold `pollSound` over a sequence of per-poll classified alert lists,
collecting at each poll whether the cue played. -/
def runPolls (latch : Bool) : List (List Event) → List Bool
  | [] => []
  | l :: ls =>
    let s := pollSound latch l
    s.2 :: runPolls s.1 ls

/-- Modelled from the spec: the cue is expected exactly on transitions from
Quiescent (previous poll's list empty; before the first poll the latch is
down, i.e. the previous list counts as empty) into AlertActive (current
list nonempty). `prev` is the previous poll's alert list. -/
def cueSpecFrom (prev : List Event) : List (List Event) → List Bool
  | [] => []
  | l :: ls => (prev.isEmpty && !l.isEmpty) :: cueSpecFrom l ls

/-- Actions affecting a poller: an invocation reaching its fetch call
(`start`) or a previously issued fetch resolving (`finish`). -/
inductive PollAct where
  | start
  | finish
deriving Repr, DecidableEq

/-- State of the admin `fetchEvents` poller (`src/deploy/client/js/admin.js`):
the `eventsFetchInFlight` flag, the number of `/events` requests currently
in flight, and the total number issued. -/
structure AdminPoll where
  inFlight : Bool
  pending : Nat
  requests : Nat
deriving Repr, DecidableEq

/-- `fetchEvents` up to its first await: `if (eventsFetchInFlight) return;`
(no network call, no state change), else raise the flag and issue the
request. -/
def adminPollStart (s : AdminPoll) : AdminPoll :=
  if s.inFlight then s
  else { inFlight := true, pending := s.pending + 1, requests := s.requests + 1 }

/-- The `finally` clause of `fetchEvents`: the request resolves and
`eventsFetchInFlight` is lowered. -/
def adminPollFinish (s : AdminPoll) : AdminPoll :=
  { s with inFlight := false, pending := s.pending - 1 }

def adminStep (s : AdminPoll) : PollAct → AdminPoll
  | .start => adminPollStart s
  | .finish => adminPollFinish s

def adminRun (s : AdminPoll) : List PollAct → AdminPoll
  | [] => s
  | a :: acts => adminRun (adminStep s a) acts

def adminInit : AdminPoll := ⟨false, 0, 0⟩

/-- State of the lifeguard `checkLiveAlerts` poller (`src/client/script.js`):
whether the dashboard is hidden, the number of `/events` requests in
flight, and the total issued. The function has no in-flight flag. -/
structure GuardPoll where
  hidden : Bool
  pending : Nat
  requests : Nat
deriving Repr, DecidableEq

/-- `checkLiveAlerts` up to its first await: return early only when the
dashboard is hidden; otherwise unconditionally issue a `/events` fetch. -/
def guardPollStart (s : GuardPoll) : GuardPoll :=
  if s.hidden then s
  else { s with pending := s.pending + 1, requests := s.requests + 1 }

/-- A previously issued `checkLiveAlerts` fetch resolves. -/
def guardPollFinish (s : GuardPoll) : GuardPoll :=
  { s with pending := s.pending - 1 }

def guardStep (s : GuardPoll) : PollAct → GuardPoll
  | .start => guardPollStart s
  | .finish => guardPollFinish s

def guardRun (s : GuardPoll) : List PollAct → GuardPoll
  | [] => s
  | a :: acts => guardRun (guardStep s a) acts

def guardInit : GuardPoll := ⟨false, 0, 0⟩

/-- Observable steps of `logout()` in `src/client/script.js`. -/
inductive LogoutAct where
  | stopTimer
  | notifyAuth
  | clearCreds
  | navigate
deriving Repr, DecidableEq

/-- `script.js` `authLogout`: `fetch(...).catch(() => {})` — the network
outcome is caught and discarded, so the call always resolves. Returns the
attempted action together with the (always ok) outcome. -/
def authLogout (netOk : Bool) : List LogoutAct × Except Unit Unit :=
  let outcome : Except Unit Unit :=
    if netOk then Except.ok () else Except.error ()
  ([LogoutAct.notifyAuth],
    match outcome with
    | Except.ok u => Except.ok u
    | Except.error _ => Except.ok ())

/-- `script.js` `logout()` as the trace of actions it executes, in order:
conditionally `clearInterval` on the poll timer, then `await authLogout()`,
then `clearTokens()`, then `location.reload()`. `none` would mean the
function aborted with an uncaught rejection before completing. -/
def logout (timerActive netOk : Bool) : Option (List LogoutAct) :=
  let stop := if timerActive then [LogoutAct.stopTimer] else []
  let auth := authLogout netOk
  match auth.2 with
  | Except.error _ => none
  | Except.ok _ =>
    some (stop ++ auth.1 ++ [LogoutAct.clearCreds, LogoutAct.navigate])

/-- `src/server/index.mjs` `getRoleFromGroups`: lowercase every group name,
then check admin group names first, then lifeguard ones. -/
def getRoleFromGroups (groups : List String) : String :=
  let g := groups.map toLowerCase
  if g.contains "admins" || g.contains "admin" then "admin"
  else if g.contains "lifeguards" || g.contains "lifeguard"
      || g.contains "guard" then "guard"
  else "unknown"

/-! ## Theorems -/

/-- Claim C4: `isTokenExpired` returns true iff the current time is strictly
greater than the recorded expiry minus the 15-second margin (for a parsed,
nonzero expiry); with expiry `now + 20000` it returns false, with expiry
`now + 10000` it returns true, and a missing or zero expiry is treated as
never-expired. -/
theorem isTokenExpired_margin (jsNum : String → Option Int) (now e : Int)
    (s : String) (hnow : 0 < now) :
    (jsNum s = some e → e ≠ 0 →
      (isTokenExpired jsNum now (some s) = true ↔ now > e - 15000)) ∧
    (jsNum s = some (now + 20000) →
      isTokenExpired jsNum now (some s) = false) ∧
    (jsNum s = some (now + 10000) →
      isTokenExpired jsNum now (some s) = true) ∧
    (jsNum "0" = some 0 → isTokenExpired jsNum now none = false) ∧
    (jsNum s = some 0 → isTokenExpired jsNum now (some s) = false) := by
  refine ⟨?_, ?_, ?_, ?_, ?_⟩
  · intro hp hne
    simp only [isTokenExpired, Option.getD_some, hp, if_neg hne]
    exact decide_eq_true_iff
  · intro hp
    have hne : now + 20000 ≠ 0 := by omega
    simp only [isTokenExpired, Option.getD_some, hp, if_neg hne]
    rw [decide_eq_false_iff_not]
    omega
  · intro hp
    have hne : now + 10000 ≠ 0 := by omega
    simp only [isTokenExpired, Option.getD_some, hp, if_neg hne]
    rw [decide_eq_true_iff]
    omega
  · intro hp
    simp [isTokenExpired, hp]
  · intro hp
    simp [isTokenExpired, hp]

/-- A concrete stand-in for JS `Number(...)` used by witnesses: parses the
few literals they mention, `NaN` (`none`) elsewhere. -/
def jsNumDemo (t : String) : Option Int :=
  if t = "120000" then some 120000
  else if t = "110000" then some 110000
  else if t = "0" then some 0
  else none

/-- Witness for C4 at concrete inputs: now 100000, stored expiry strings
parsed by `jsNumDemo`. -/
theorem isTokenExpired_margin_witness :
    isTokenExpired jsNumDemo 100000 (some "120000") = false ∧
    isTokenExpired jsNumDemo 100000 (some "110000") = true := by
  have h := isTokenExpired_margin jsNumDemo 100000 120000 "120000"
    (by decide)
  have h2 := isTokenExpired_margin jsNumDemo 100000 110000 "110000"
    (by decide)
  exact ⟨h.2.1 (by decide), h2.2.2.1 (by decide)⟩

/-- Claim C9: a stored expiry string that does not parse as a number (JS
`Number(...)` is `NaN`) makes `isTokenExpired` return false, exactly like a
missing expiry, so `authHeader` still attaches the Authorization header when
a token exists. -/
theorem corrupt_expiry_never_expires (jsNum : String → Option Int)
    (now : Int) (s idToken accessToken : String)
    (_hs : s ≠ "") (hp : jsNum s = none) :
    isTokenExpired jsNum now (some s) = false ∧
    (getApiBearerToken idToken accessToken ≠ "" →
      authHeader jsNum now (some s) idToken accessToken =
        some ("Bearer " ++ getApiBearerToken idToken accessToken)) := by
  have hexp : isTokenExpired jsNum now (some s) = false := by
    simp [isTokenExpired, hp]
  refine ⟨hexp, fun htok => ?_⟩
  simp [authHeader, hexp, htok]

/-- Witness for C9: a garbage expiry string under a parser rejecting it. -/
theorem corrupt_expiry_never_expires_witness :
    isTokenExpired (fun _ => none) 1000 (some "garbage") = false ∧
    authHeader (fun _ => none) 1000 (some "garbage") "tok" "" =
      some ("Bearer " ++ "tok") := by
  have h := corrupt_expiry_never_expires (fun _ => none) 1000 "garbage"
    "tok" "" (by decide) rfl
  refine ⟨h.1, h.2 ?_⟩
  simp [getApiBearerToken]

/-- Claim C5: with a nonempty alert list of length `n` and displayed index
`0 ≤ i < n`, `nextAlert` yields `(i+1) mod n` and `prevAlert` yields
`(i-1+n) mod n`; with an empty list both are no-ops. -/
theorem navigateAlert_wraps (n : Nat) (i : Int) :
    (0 ≤ i → i < (n : Int) →
      nextAlert n i = (i + 1) % (n : Int) ∧
      prevAlert n i = (i - 1 + (n : Int)) % (n : Int)) ∧
    nextAlert 0 i = i ∧ prevAlert 0 i = i := by
  refine ⟨fun h0 hn => ?_, by simp [nextAlert], by simp [prevAlert]⟩
  have hpos : 0 < (n : Int) := lt_of_le_of_lt h0 hn
  have hne : n ≠ 0 := by
    intro h
    rw [h] at hpos
    exact absurd hpos (by norm_num)
  constructor
  · unfold nextAlert
    rw [if_neg hne]
    by_cases h : i + 1 ≥ (n : Int)
    · have heq : i + 1 = (n : Int) := le_antisymm (by omega) h
      rw [if_pos h, heq, Int.emod_self]
    · rw [if_neg h]
      exact (Int.emod_eq_of_lt (by omega) (by omega)).symm
  · unfold prevAlert
    rw [if_neg hne]
    by_cases h : i - 1 < 0
    · have heq : i = 0 := by omega
      rw [if_pos h, heq]
      rw [show (0 : Int) - 1 + (n : Int) = (n : Int) - 1 by ring]
      exact (Int.emod_eq_of_lt (by omega) (by omega)).symm
    · rw [if_neg h]
      have hmod : (i - 1 + (n : Int)) % (n : Int) = (i - 1) % (n : Int) := by
        rw [Int.add_emod, Int.emod_self, add_zero, Int.emod_emod_of_dvd]
        exact dvd_rfl
      rw [hmod]
      exact (Int.emod_eq_of_lt (by omega) (by omega)).symm

/-- Witness for C5 at the claim's examples: length 3, next from index 2
wraps to 0, previous from index 0 wraps to 2. -/
theorem navigateAlert_wraps_witness :
    nextAlert 3 2 = 0 ∧ prevAlert 3 0 = 2 := by
  have h1 := (navigateAlert_wraps 3 2).1 (by decide) (by decide)
  have h2 := (navigateAlert_wraps 3 0).1 (by decide) (by decide)
  exact ⟨h1.1.trans (by decide), h2.2.trans (by decide)⟩

/-- Claim C6: for a nonempty URL, `getSafeUrl` appends `cb=<ts>` with `&`
when the URL already contains `?` and with `?` otherwise; in particular on
the claim's two example URLs. -/
theorem getSafeUrl_cache_busts (now : Nat) (url : String) (h : url ≠ "") :
    getSafeUrl now url =
      url ++ (if url.data.contains '?' then "&" else "?")
        ++ "cb=" ++ toString now ∧
    getSafeUrl now "https://x/img.png" =
      "https://x/img.png?cb=" ++ toString now ∧
    getSafeUrl now "https://x/img.png?sig=abc" =
      "https://x/img.png?sig=abc&cb=" ++ toString now := by
  refine ⟨by rw [getSafeUrl, if_neg h], ?_, ?_⟩
  · have hq : ("https://x/img.png" : String).data.contains '?' = false := by
      decide
    have hne : ("https://x/img.png" : String) ≠ "" := by decide
    rw [getSafeUrl, if_neg hne, hq]
    simp only [Bool.false_eq_true, if_false]
    congr 1
  · have hq : ("https://x/img.png?sig=abc" : String).data.contains '?'
      = true := by decide
    have hne : ("https://x/img.png?sig=abc" : String) ≠ "" := by decide
    rw [getSafeUrl, if_neg hne, hq]
    simp only [if_true]
    congr 1

/-- Witness for C6 at a concrete timestamp and URL. -/
theorem getSafeUrl_cache_busts_witness :
    getSafeUrl 17000 "https://x/img.png" = "https://x/img.png?cb=17000" := by
  have h := getSafeUrl_cache_busts 17000 "https://x/img.png" (by decide)
  exact h.2.1.trans (by decide)

/-- Claim C1: `checkLiveAlerts`'s classification step returns exactly the
events whose uppercase-normalized status is `"OPEN"` and whose
`warningImageUrl` is non-empty, ordered by parsed `created_at` descending
(a malformed `created_at` parses to epoch 0), and every returned alert
satisfies that predicate. -/
theorem classify_filters_and_sorts (dateVal : String → Option Int)
    (events : List Event) :
    (∀ e ∈ classify dateVal events, alertWorthy e = true) ∧
    List.Perm (classify dateVal events) (events.filter alertWorthy) ∧
    List.Sorted (dateDescOrder dateVal) (classify dateVal events) ∧
    (∀ s, dateVal s = none → parseDateSafe dateVal s = 0) := by
  have hperm : List.Perm (classify dateVal events)
      (events.filter alertWorthy) := List.perm_insertionSort _ _
  refine ⟨?_, hperm, ?_, ?_⟩
  · intro e he
    have hmem : e ∈ events.filter alertWorthy := hperm.mem_iff.mp he
    exact (List.mem_filter.mp hmem).2
  · haveI : IsTotal Event (dateDescOrder dateVal) :=
      ⟨fun a b => le_total _ _⟩
    haveI : IsTrans Event (dateDescOrder dateVal) :=
      ⟨fun a b c hab hbc => le_trans hbc hab⟩
    exact List.sorted_insertionSort _ _
  · intro s hsn
    simp [parseDateSafe, hsn]

/-- Witness for C1: a concrete lowercase-`open` event with an after image is
classified as an alert. -/
theorem classify_filters_and_sorts_witness :
    alertWorthy ⟨"e1", "open", "bad-date", "", "w.png"⟩ = true :=
  (classify_filters_and_sorts (fun _ => none)
      [⟨"e1", "open", "bad-date", "", "w.png"⟩]).1
    ⟨"e1", "open", "bad-date", "", "w.png"⟩ (by decide)

/-- The latch after each poll equals that poll's list nonemptiness, so a run
started with the latch reflecting `prev` produces the spec's cue pattern. -/
theorem runPolls_cueSpec (prev : List Event) (ls : List (List Event)) :
    runPolls (!prev.isEmpty) ls = cueSpecFrom prev ls := by
  induction ls generalizing prev with
  | nil => rfl
  | cons l ls ih =>
    have hil := ih l
    cases hp : prev.isEmpty <;> cases hle : l.isEmpty <;>
      simp only [hle, Bool.not_true, Bool.not_false] at hil <;>
      simp [runPolls, pollSound, cueSpecFrom, hp, hle, hil]

/-- Claim C3: starting from an unset latch, the audible cue plays exactly on
transitions from an empty alert list (Quiescent) to a nonempty one
(AlertActive): no replay while the list stays nonempty, and an empty poll
resets the latch so the next nonempty poll replays the cue. -/
theorem alert_cue_once_per_transition (ls : List (List Event)) :
    runPolls false ls = cueSpecFrom [] ls := by
  have h := runPolls_cueSpec [] ls
  simpa using h

/-- Modelled from the claim: a group name that case-insensitively equals
`"admins"` or `"admin"`. -/
def isAdminGroup (x : String) : Bool :=
  toLowerCase x == "admins" || toLowerCase x == "admin"

/-- Modelled from the claim: a group name that case-insensitively equals
`"lifeguards"`, `"lifeguard"` or `"guard"`. -/
def isGuardGroup (x : String) : Bool :=
  toLowerCase x == "lifeguards" || toLowerCase x == "lifeguard"
    || toLowerCase x == "guard"

theorem map_toLowerCase_contains (gs : List String) (t : String) :
    (gs.map toLowerCase).contains t
      = gs.any (fun x => toLowerCase x == t) := by
  induction gs with
  | nil => rfl
  | cons g gs ih =>
    have hsymm : (t == toLowerCase g) = (toLowerCase g == t) := by
      simp [beq_iff_eq, eq_comm]
    rw [List.map_cons, List.contains_cons, List.any_cons, ih, hsymm]

theorem any_or_split (l : List String) (p q : String → Bool) :
    (l.any fun x => p x || q x) = (l.any p || l.any q) := by
  induction l with
  | nil => rfl
  | cons a l ih =>
    simp only [List.any_cons, ih]
    cases p a <;> cases q a <;> simp

/-- Claim C10: role derivation returns `"admin"` when any group
case-insensitively equals `admins`/`admin`, otherwise `"guard"` when any
equals `lifeguards`/`lifeguard`/`guard`, otherwise `"unknown"`; membership
in both an admin and a lifeguard group yields `"admin"`. -/
theorem getRoleFromGroups_precedence (gs : List String) :
    getRoleFromGroups gs =
      (if gs.any isAdminGroup then "admin"
       else if gs.any isGuardGroup then "guard"
       else "unknown") ∧
    (∀ a b, a ∈ gs → b ∈ gs → isAdminGroup a = true → isGuardGroup b = true →
      getRoleFromGroups gs = "admin") := by
  have hchar : getRoleFromGroups gs =
      (if gs.any isAdminGroup then "admin"
       else if gs.any isGuardGroup then "guard"
       else "unknown") := by
    unfold getRoleFromGroups isAdminGroup isGuardGroup
    simp only [map_toLowerCase_contains, any_or_split]
  refine ⟨hchar, fun a b ha hb hA hB => ?_⟩
  have hany : gs.any isAdminGroup = true :=
    List.any_eq_true.mpr ⟨a, ha, hA⟩
  rw [hchar, if_pos hany]

/-- Witness for C10: a user in both `Admins` and `Lifeguards` is admin. -/
theorem getRoleFromGroups_precedence_witness :
    getRoleFromGroups ["Admins", "Lifeguards"] = "admin" :=
  (getRoleFromGroups_precedence ["Admins", "Lifeguards"]).2
    "Admins" "Lifeguards" (by decide) (by decide) (by decide) (by decide)

/-- Counterexample for C2 as stated: the lifeguard `checkLiveAlerts` poller
(`src/client/script.js`) has no in-flight guard, so two poll ticks whose
fetches have not resolved put two `/events` requests in flight at once. -/
theorem checkLiveAlerts_not_single_flight :
    (guardRun guardInit [PollAct.start, PollAct.start]).pending = 2 ∧
    ¬ (∀ acts : List PollAct, (guardRun guardInit acts).pending ≤ 1) := by
  refine ⟨by decide, fun h => ?_⟩
  exact absurd (h [PollAct.start, PollAct.start]) (by decide)

theorem adminRun_pending_eq (acts : List PollAct) :
    ∀ s : AdminPoll, s.pending = (if s.inFlight then 1 else 0) →
      (adminRun s acts).pending
        = (if (adminRun s acts).inFlight then 1 else 0) := by
  induction acts with
  | nil => exact fun s h => h
  | cons a acts ih =>
    intro s h
    refine ih _ ?_
    cases a <;>
      simp only [adminStep, adminPollStart, adminPollFinish] <;>
      by_cases hf : s.inFlight <;>
      simp_all

/-- Claim C2 (amended): the admin `fetchEvents` poller is single-flight: an
invocation while `eventsFetchInFlight` is set changes nothing and issues no
request, and at most one `/events` request is ever in flight. -/
theorem fetchEvents_single_flight :
    (∀ s : AdminPoll, s.inFlight = true → adminPollStart s = s) ∧
    (∀ acts : List PollAct, (adminRun adminInit acts).pending ≤ 1) := by
  constructor
  · intro s h
    unfold adminPollStart
    rw [if_pos h]
  · intro acts
    have h := adminRun_pending_eq acts adminInit rfl
    rw [h]
    split <;> omega

/-- Witness for the amended C2 at a concrete state and action trace. -/
theorem fetchEvents_single_flight_witness :
    adminPollStart ⟨true, 1, 1⟩ = ⟨true, 1, 1⟩ ∧
    (adminRun adminInit
      [PollAct.start, PollAct.start, PollAct.finish, PollAct.start]).pending
      ≤ 1 :=
  ⟨fetchEvents_single_flight.1 ⟨true, 1, 1⟩ rfl,
   fetchEvents_single_flight.2
     [PollAct.start, PollAct.start, PollAct.finish, PollAct.start]⟩

/-- Claim C7: `logout()` executes, in order: stop the poll timer, notify the
auth collaborator, clear credentials, navigate — and it completes (returns
`some` trace) whether or not the logout notification succeeds, because the
notification failure is caught and swallowed. -/
theorem logout_order_and_best_effort (timerActive netOk : Bool) :
    logout timerActive netOk =
      some ((if timerActive then [LogoutAct.stopTimer] else []) ++
        [LogoutAct.notifyAuth, LogoutAct.clearCreds, LogoutAct.navigate]) ∧
    (authLogout netOk).2 = Except.ok () := by
  cases timerActive <;> cases netOk <;> exact ⟨rfl, rfl⟩

/-- Claim C8: `apiFetch` always sends the request, with an
`Authorization: Bearer` header exactly when a token exists and is not
expired; it throws exactly on response status 401 or 403 and otherwise
returns the response unchanged. -/
theorem apiFetch_auth_and_errors (jsNum : String → Option Int) (now : Int)
    (stored : Option String) (idToken accessToken : String) (st : Nat) :
    ((apiFetch jsNum now stored idToken accessToken st).1.authz =
      if getApiBearerToken idToken accessToken = ""
          ∨ isTokenExpired jsNum now stored = true then none
      else some ("Bearer " ++ getApiBearerToken idToken accessToken)) ∧
    (st = 401 ∨ st = 403 →
      (apiFetch jsNum now stored idToken accessToken st).2
        = Except.error st) ∧
    (st ≠ 401 → st ≠ 403 →
      (apiFetch jsNum now stored idToken accessToken st).2
        = Except.ok st) := by
  refine ⟨?_, ?_, ?_⟩
  · have hreq : (apiFetch jsNum now stored idToken accessToken st).1.authz
        = authHeader jsNum now stored idToken accessToken := by
      unfold apiFetch
      split <;> rfl
    rw [hreq]
    unfold authHeader
    by_cases h1 : getApiBearerToken idToken accessToken = "" <;>
      by_cases h2 : isTokenExpired jsNum now stored = true <;>
      simp_all
  · rintro (rfl | rfl) <;> simp [apiFetch]
  · intro h1 h2
    simp [apiFetch, h1, h2]

/-- Witness for C8: a 401 response throws, a 200 one is returned as-is. -/
theorem apiFetch_auth_and_errors_witness :
    (apiFetch jsNumDemo 100000 (some "120000") "tok" "" 401).2
      = Except.error 401 ∧
    (apiFetch jsNumDemo 100000 (some "120000") "tok" "" 200).2
      = Except.ok 200 :=
  ⟨(apiFetch_auth_and_errors jsNumDemo 100000 (some "120000")
      "tok" "" 401).2.1 (Or.inl rfl),
   (apiFetch_auth_and_errors jsNumDemo 100000 (some "120000")
      "tok" "" 200).2.2 (by decide) (by decide)⟩

end LifeShot
